import Mathlib

/-!
# Verification of the logshare repository's client core

Shallow embedding of `vendor/github.com/cloudflare/cloudflare-go/cloudflare.go`
(the HTTP fetcher / API client) and, where the repository's own retriever code
is not present in the sources, models built from the specification's words.

Conventions: Go strings become `String`, HTTP status codes become `Nat`,
`http.Header` becomes an association list from key to list of values,
fallible Go functions returning `(T, error)` become `Except E T`.
-/

namespace Logshare

/-! ## HTTP fetcher: status classification (`makeRequestWithAuthType`) -/

/-- The classified failure of one fetch, mirroring the error values built in
the status-code `switch` of `makeRequestWithAuthType`. -/
inductive FetchError where
  /-- Error `HTTP status %d: invalid credentials`. -/
  | authError (status : Nat)
  /-- Error `HTTP status %d: insufficient permissions`. -/
  | permissionError (status : Nat)
  /-- Error `HTTP status %d: service failure`. -/
  | transientError (status : Nat)
  /-- Error `HTTP status %d: content %q`. -/
  | apiError (status : Nat) (content : String)
deriving DecidableEq, Repr

/-- The status codes of the third `case` of the `switch`:
`http.StatusServiceUnavailable, http.StatusBadGateway, http.StatusGatewayTimeout, 522, 523, 524`. -/
def transientStatusCodes : List Nat := [503, 502, 504, 522, 523, 524]

/-- The status-classification tail of `makeRequestWithAuthType`
(cloudflare.go lines 115–133): after the body has been read in full,
the `switch resp.StatusCode` either returns the body or one classified error.
`case http.StatusOK` is the single success case. -/
def makeRequestClassify (statusCode : Nat) (body : String) : Except FetchError String :=
  if statusCode = 200 then
    .ok body
  else if statusCode = 401 then
    .error (.authError statusCode)
  else if statusCode = 403 then
    .error (.permissionError statusCode)
  else if statusCode ∈ transientStatusCodes then
    .error (.transientError statusCode)
  else
    .error (.apiError statusCode body)

/-- A status code in the 2xx success range. -/
def is2xx (statusCode : Nat) : Prop := 200 ≤ statusCode ∧ statusCode ≤ 299

instance (s : Nat) : Decidable (is2xx s) := by unfold is2xx; infer_instance

/-- The spec's classification of a non-2xx response (§4.1 error conditions),
written from the spec's words, to be compared with the classification the
source performs: 401 → auth, 403 → permission, 502/503/504/522/523/524 →
transient, any other → API error with status and body. -/
def specNonSuccessClassification (statusCode : Nat) (body : String) : FetchError :=
  if statusCode = 401 then .authError statusCode
  else if statusCode = 403 then .permissionError statusCode
  else if statusCode ∈ transientStatusCodes then .transientError statusCode
  else .apiError statusCode body

/-! ## Client construction (`New`) and request headers (`request`) -/

/-- Constant `AuthApiToken = 1 << iota`. -/
def AuthApiToken : Nat := 1
/-- Constant `AuthKeyEmail`. -/
def AuthKeyEmail : Nat := 2
/-- Constant `AuthUserService`. -/
def AuthUserService : Nat := 4

/-- A header map: association list from canonical key to value list,
modelling `http.Header`. -/
def Header := List (String × List String)

/-- The empty header map (`make(http.Header)`). -/
def Header.empty : Header := []

/-- Model of `http.Header.Set(key, value)`: replace any existing values of `key` by the
single value `value` (keys used by the source are already canonical). -/
def Header.set (h : Header) (key value : String) : Header :=
  match h with
  | [] => [(key, [value])]
  | (k, vs) :: rest =>
      if k = key then (key, [value]) :: rest.filter (fun p => p.1 ≠ key)
      else (k, vs) :: Header.set rest key value

/-- Model of `http.Header.Get(key)`: first value for `key`, or `""` when absent —
modelled as `Option String` with `none` for absent. -/
def Header.get (h : Header) (key : String) : Option String :=
  match h with
  | [] => none
  | (k, vs) :: rest => if k = key then vs.head? else Header.get rest key

instance : DecidableEq Header := inferInstanceAs (DecidableEq (List (String × List String)))

/-- The `API` struct: configuration of the client
(the `*http.Client` field is not modelled; it takes no part in the claims). -/
structure API where
  APIToken : String
  APIKey : String
  APIEmail : String
  APIUserServiceKey : String
  BaseURL : String
  organizationID : String
  headers : Header
  authType : Nat
deriving DecidableEq

/-- Constant `apiURL`. -/
def apiURL : String := "https://api.cloudflare.com/client/v4"

/-- Constant `errEmptyCredentials` (declared outside the vendored file; its text is
immaterial to the claims, only its identity as the error `New` returns). -/
def errEmptyCredentials : String := "invalid credentials: key & email must not be empty"

/-- Constructor `New(token, key, email)` without options: fails when
`token == "" && (key == "" || email == "")`, otherwise builds the client with
`BaseURL = apiURL`, empty headers and `authType = AuthKeyEmail`. -/
def New (token key email : String) : Except String API :=
  if token = "" ∧ (key = "" ∨ email = "") then
    .error errEmptyCredentials
  else
    .ok { APIToken := token, APIKey := key, APIEmail := email,
          APIUserServiceKey := "", BaseURL := apiURL, organizationID := "",
          headers := Header.empty, authType := AuthKeyEmail }

/-- Setter `SetAuthType`. -/
def SetAuthType (api : API) (authType : Nat) : API :=
  { api with authType := authType }

/-- Function `cloneHeader`: a fresh map holding the same key/value-slice pairs. -/
def cloneHeader (header : Header) : Header := header

/-- The header-construction phase of `request` (cloudflare.go lines 145–160):
start from a clone of the stored headers, set the authentication headers
selected by the bits of `authType`, then default the content type. -/
def requestHeaders (api : API) (authType : Nat) : Header :=
  let h := cloneHeader api.headers
  let h := if authType &&& AuthApiToken ≠ 0 then
      h.set "Authorization" ("Bearer " ++ api.APIToken) else h
  let h := if authType &&& AuthKeyEmail ≠ 0 then
      (h.set "X-Auth-Key" api.APIKey).set "X-Auth-Email" api.APIEmail else h
  let h := if authType &&& AuthUserService ≠ 0 then
      h.set "X-Auth-User-Service-Key" api.APIUserServiceKey else h
  if (h.get "Content-Type").isNone then h.set "Content-Type" "application/json"
  else h

/-- The headers `makeRequest` sends: `request` is called with the stored
`api.authType`. -/
def makeRequestHeaders (api : API) : Header :=
  requestHeaders api api.authType

/-! ## Mutation model for the header phase of `request`

Go header maps are reference values: writing through one name writes every
alias. The state below tracks the client's stored map, the request's map, and
whether the two are the same map object, so that the effect of
`req.Header = cloneHeader(api.headers)` followed by `req.Header.Set(...)`
calls on the stored map is represented faithfully. -/

/-- State of the two header objects during the header phase of `request`. -/
structure HeaderState where
  apiHeaders : Header
  reqHeader : Header
  aliased : Bool

/-- A `req.Header.Set(key, value)` call under Go reference semantics: it
writes the request's map, and also the client's map when the two are the same
object. -/
def HeaderState.setReq (st : HeaderState) (key value : String) : HeaderState :=
  { apiHeaders := if st.aliased then st.apiHeaders.set key value else st.apiHeaders,
    reqHeader := st.reqHeader.set key value,
    aliased := st.aliased }

/-- The assignment `req.Header = cloneHeader(api.headers)` (line 146): the
request now holds a fresh copy of the stored map, not the stored map itself. -/
def HeaderState.assignClone (st : HeaderState) : HeaderState :=
  { apiHeaders := st.apiHeaders, reqHeader := cloneHeader st.apiHeaders,
    aliased := false }

/-- Statement `if authType&AuthApiToken != 0` (lines 147–149) under the
mutation model. -/
def stepAuthToken (api : API) (authType : Nat) (st : HeaderState) : HeaderState :=
  if authType &&& AuthApiToken ≠ 0 then
    st.setReq "Authorization" ("Bearer " ++ api.APIToken) else st

/-- Statement `if authType&AuthKeyEmail != 0` (lines 150–153) under the
mutation model. -/
def stepKeyEmail (api : API) (authType : Nat) (st : HeaderState) : HeaderState :=
  if authType &&& AuthKeyEmail ≠ 0 then
    (st.setReq "X-Auth-Key" api.APIKey).setReq "X-Auth-Email" api.APIEmail else st

/-- Statement `if authType&AuthUserService != 0` (lines 154–156) under the
mutation model. -/
def stepUserService (api : API) (authType : Nat) (st : HeaderState) : HeaderState :=
  if authType &&& AuthUserService ≠ 0 then
    st.setReq "X-Auth-User-Service-Key" api.APIUserServiceKey else st

/-- Statement `if req.Header.Get("Content-Type") == ""` (lines 158–160) under
the mutation model. -/
def stepContentType (st : HeaderState) : HeaderState :=
  if (st.reqHeader.get "Content-Type").isNone then
    st.setReq "Content-Type" "application/json" else st

/-- The header phase of `request` (lines 145–160) under the mutation model:
clone the stored headers into the request, then apply the authentication and
content-type `Set` calls to the request's map, one statement per step. -/
def requestHeaderPhase (api : API) (authType : Nat) : HeaderState :=
  stepContentType (stepUserService api authType (stepKeyEmail api authType
    (stepAuthToken api authType (HeaderState.assignClone
      { apiHeaders := api.headers, reqHeader := Header.empty, aliased := false }))))

/-- The client value after `request` returns: `request` assigns no field of
`api`; the only channel through which it could have changed the client is a
write to the map `api.headers` through an alias, which `requestHeaderPhase`
tracks. -/
def requestApiAfter (api : API) (authType : Nat) : API :=
  { api with headers := (requestHeaderPhase api authType).apiHeaders }

/-! ## Streaming retriever (modelled from the spec)

The repository's own retriever (its client source file) is not among the
sources; only the vendored generic API client is. The definitions below are
therefore built from the specification's words (§4.2, §8). -/

/-- Modelled from the spec: a `LogRecord` is "an opaque mapping from field
name to value" (§3); the retriever's own code is not among the sources. -/
def LogRecord := List (String × String)

instance : DecidableEq LogRecord :=
  inferInstanceAs (DecidableEq (List (String × String)))

/-- Modelled from the spec: the error aborting a stream, identifying the
record index where decoding failed (§4.2 failure propagation). -/
inductive StreamError where
  /-- A decode failure at the given record index. -/
  | decodeError (index : Nat)
deriving DecidableEq, Repr

/-- Modelled from the spec: the decode loop of the Streaming Retriever, whose
source file is not among the sources. The NDJSON body is a list of lines,
each either a well-formed record (`some r`) or malformed (`none`); `i` is the
index of the next record; `count` is the remaining record budget, with
negative values the unbounded sentinel (§3, §4.2). The loop stops once the
body is exhausted or `count` records have been yielded, and aborts with a
`decodeError` naming the current index on a malformed line. -/
def runStream : List (Option LogRecord) → Nat → Int →
    List LogRecord × Option StreamError
  | [], _, _ => ([], none)
  | line :: rest, i, count =>
      if count = 0 then ([], none)
      else
        match line with
        | none => ([], some (.decodeError i))
        | some r =>
            let next := runStream rest (i + 1) (if count < 0 then count else count - 1)
            (r :: next.1, next.2)

/-- Modelled from the spec: the client-side validation failure (§7); the
retriever's source file is not among the sources. -/
inductive QueryError where
  /-- Both selectors set, neither set, or `StartTime >= EndTime`. -/
  | invalidQuery
deriving DecidableEq, Repr

/-- Modelled from the spec: the `Query` value of §3 — mutually exclusive
selector (ray ID or time interval), count with unbounded sentinel, optional
sampling fraction, optional field selection, optional timestamp format; the
retriever's source file is not among the sources. -/
structure Query where
  rayID : Option String
  timeRange : Option (Int × Int)
  count : Int
  sample : Option ℚ
  fields : List String
  timestampFormat : Option String
deriving DecidableEq

/-- Modelled from the spec: validation of the §3 invariant — exactly one
selector (ray ID XOR time range) must be set, and `StartTime < EndTime` when
the time range is used; a violation is `InvalidQuery` (§7). -/
def validateQuery (q : Query) : Except QueryError Query :=
  match q.rayID, q.timeRange with
  | some _, some _ => .error .invalidQuery
  | none, none => .error .invalidQuery
  | some _, none => .ok q
  | none, some r => if r.1 < r.2 then .ok q else .error .invalidQuery

/-- Modelled from the spec: the single entry point "retrieve records for
Query Q" (§6) — validate the query first, and only on success fetch and
decode the body; the second component counts the fetches performed, so that
an invalid query performing zero fetches is "never sent over the network"
(§7). -/
def retrieveForQuery (q : Query) (body : List (Option LogRecord)) :
    Except QueryError (List LogRecord × Option StreamError) × Nat :=
  match validateQuery q with
  | .error e => (.error e, 0)
  | .ok q2 => (.ok (runStream body 0 q2.count), 1)

/-! ## Zone lookup (`ZoneIDByName`) -/

/-- A zone as used by `ZoneIDByName`: its identifier and name.
(`ListZones` and the full `Zone` struct live outside the vendored file.) -/
structure Zone where
  ID : String
  Name : String
deriving DecidableEq, Repr

/-- The loop of `ZoneIDByName` (cloudflare.go lines 77–82) over the listing
`res` returned by `ListZones` (which lives outside the vendored file; the
listing is taken as input): return the ID of the first zone whose name equals
the requested one, else the not-found error. -/
def ZoneIDByName : List Zone → String → Except String String
  | [], _ => .error "Zone could not be found"
  | zone :: rest, zoneName =>
      if zone.Name = zoneName then .ok zone.ID else ZoneIDByName rest zoneName

/-! ## Theorems -/

/-- C1: for every fetch, a non-2xx status is classified exactly as the spec
says — 401 an authentication error, 403 a permission error, 502/503/504 and
the edge-specific 522/523/524 a transient service failure, and any other
non-2xx a generic API error carrying the status code and the body text. -/
theorem claim_C1_status_classification (statusCode : Nat) (body : String)
    (h : ¬ is2xx statusCode) :
    makeRequestClassify statusCode body =
      .error (specNonSuccessClassification statusCode body) := by
  have h200 : statusCode ≠ 200 := by
    intro he
    exact h (by rw [he]; exact ⟨le_refl _, by norm_num⟩)
  unfold makeRequestClassify specNonSuccessClassification
  rw [if_neg h200]
  split_ifs <;> rfl

/-- Witness for C1 at the concrete non-2xx status 418. -/
theorem claim_C1_status_classification_witness :
    ¬ is2xx 418 ∧
      makeRequestClassify 418 "teapot" =
        .error (specNonSuccessClassification 418 "teapot") :=
  ⟨by decide, claim_C1_status_classification 418 "teapot" (by decide)⟩

/-- C3 as stated is false: status 201 is in the 2xx range, yet the fetch does
not succeed — the source's `switch` accepts only `http.StatusOK` (200), so
201 falls to the default branch and yields the generic API error. -/
theorem claim_C3_counterexample :
    is2xx 201 ∧ makeRequestClassify 201 "created" = .error (.apiError 201 "created") :=
  ⟨by decide, rfl⟩

/-- C3 amended: the fetch succeeds and returns the body exactly when the
status code is 200; every other status — the remaining 2xx codes included —
yields the classified error (401 auth, 403 permission, the transient set,
otherwise the generic API error with status code and body). -/
theorem claim_C3_only_200_succeeds (statusCode : Nat) (body : String) :
    makeRequestClassify statusCode body =
      if statusCode = 200 then .ok body
      else .error (specNonSuccessClassification statusCode body) := by
  unfold makeRequestClassify specNonSuccessClassification
  split_ifs <;> rfl

/-- C4: `New` fails with the empty-credentials error exactly when the token
is empty and the key or the email is empty; in every other case it succeeds. -/
theorem claim_C4_new_credentials (token key email : String) :
    (New token key email = .error errEmptyCredentials ↔
      (token = "" ∧ (key = "" ∨ email = ""))) ∧
    ((∃ api, New token key email = .ok api) ↔
      ¬ (token = "" ∧ (key = "" ∨ email = ""))) := by
  unfold New
  split_ifs with h <;> simp [h]

/-- C2 as stated is false: a client constructed with a non-empty API token and
no key/email is built successfully, yet the requests it issues carry no
`Authorization` header at all — `New` always stores `authType = AuthKeyEmail`,
so the request carries the (empty-valued) `X-Auth-Key`/`X-Auth-Email` pair
instead of the Bearer token. -/
theorem claim_C2_counterexample :
    (New "secret-token" "" "").map
        (fun api => ((makeRequestHeaders api).get "Authorization",
                     (makeRequestHeaders api).get "X-Auth-Key",
                     (makeRequestHeaders api).get "X-Auth-Email"))
      = .ok (none, some "", some "") := rfl

/-- C2 amended: request headers follow the client's `authType` bitmask — the
key/email pair is sent when the `AuthKeyEmail` bit is set and the Bearer
header when the `AuthApiToken` bit is set. A client built by `New` always
starts with `authType = AuthKeyEmail`, so every request it issues (even for a
token-only client) carries `X-Auth-Key`/`X-Auth-Email` and no `Authorization`
header; the Bearer header with the stored token is sent once the auth type is
switched to `AuthApiToken` via `SetAuthType`. -/
theorem claim_C2_auth_headers (token key email : String) (api : API)
    (h : New token key email = .ok api) :
    (makeRequestHeaders api).get "Authorization" = none ∧
    (makeRequestHeaders api).get "X-Auth-Key" = some key ∧
    (makeRequestHeaders api).get "X-Auth-Email" = some email ∧
    (makeRequestHeaders (SetAuthType api AuthApiToken)).get "Authorization"
      = some ("Bearer " ++ token) ∧
    (makeRequestHeaders (SetAuthType api AuthApiToken)).get "X-Auth-Key" = none := by
  unfold New at h
  split at h
  · exact Except.noConfusion h
  · injection h with h2
    subst h2
    refine ⟨?_, ?_, ?_, ?_, ?_⟩ <;>
      simp [makeRequestHeaders, requestHeaders, SetAuthType, cloneHeader,
            Header.empty, Header.set, Header.get,
            AuthApiToken, AuthKeyEmail, AuthUserService]

/-- Witness for C2's amended claim at a concrete client. -/
theorem claim_C2_auth_headers_witness :
    (makeRequestHeaders
        { APIToken := "t", APIKey := "k", APIEmail := "e",
          APIUserServiceKey := "", BaseURL := apiURL, organizationID := "",
          headers := Header.empty, authType := AuthKeyEmail }).get "Authorization"
      = none ∧
    (makeRequestHeaders
        { APIToken := "t", APIKey := "k", APIEmail := "e",
          APIUserServiceKey := "", BaseURL := apiURL, organizationID := "",
          headers := Header.empty, authType := AuthKeyEmail }).get "X-Auth-Key"
      = some "k" ∧
    (makeRequestHeaders
        { APIToken := "t", APIKey := "k", APIEmail := "e",
          APIUserServiceKey := "", BaseURL := apiURL, organizationID := "",
          headers := Header.empty, authType := AuthKeyEmail }).get "X-Auth-Email"
      = some "e" ∧
    (makeRequestHeaders (SetAuthType
        { APIToken := "t", APIKey := "k", APIEmail := "e",
          APIUserServiceKey := "", BaseURL := apiURL, organizationID := "",
          headers := Header.empty, authType := AuthKeyEmail } AuthApiToken)).get
        "Authorization"
      = some ("Bearer " ++ "t") ∧
    (makeRequestHeaders (SetAuthType
        { APIToken := "t", APIKey := "k", APIEmail := "e",
          APIUserServiceKey := "", BaseURL := apiURL, organizationID := "",
          headers := Header.empty, authType := AuthKeyEmail } AuthApiToken)).get
        "X-Auth-Key"
      = none :=
  claim_C2_auth_headers "t" "k" "e" _ rfl

/-- A header state is sound for a stored map `h` when the client's map equals
`h` and the request's map is not aliased to it. -/
def UnaliasedFrom (st : HeaderState) (h : Header) : Prop :=
  st.apiHeaders = h ∧ st.aliased = false

theorem setReq_unaliasedFrom {st : HeaderState} {h : Header}
    (hu : UnaliasedFrom st h) (k v : String) : UnaliasedFrom (st.setReq k v) h := by
  obtain ⟨h1, h2⟩ := hu
  exact ⟨by simp [HeaderState.setReq, h2, h1], by simp [HeaderState.setReq, h2]⟩

theorem stepAuthToken_unaliasedFrom (api : API) (authType : Nat)
    {st : HeaderState} {h : Header} (hu : UnaliasedFrom st h) :
    UnaliasedFrom (stepAuthToken api authType st) h := by
  unfold stepAuthToken
  split_ifs
  · exact setReq_unaliasedFrom hu _ _
  · exact hu

theorem stepKeyEmail_unaliasedFrom (api : API) (authType : Nat)
    {st : HeaderState} {h : Header} (hu : UnaliasedFrom st h) :
    UnaliasedFrom (stepKeyEmail api authType st) h := by
  unfold stepKeyEmail
  split_ifs
  · exact setReq_unaliasedFrom (setReq_unaliasedFrom hu _ _) _ _
  · exact hu

theorem stepUserService_unaliasedFrom (api : API) (authType : Nat)
    {st : HeaderState} {h : Header} (hu : UnaliasedFrom st h) :
    UnaliasedFrom (stepUserService api authType st) h := by
  unfold stepUserService
  split_ifs
  · exact setReq_unaliasedFrom hu _ _
  · exact hu

theorem stepContentType_unaliasedFrom {st : HeaderState} {h : Header}
    (hu : UnaliasedFrom st h) : UnaliasedFrom (stepContentType st) h := by
  unfold stepContentType
  split_ifs
  · exact setReq_unaliasedFrom hu _ _
  · exact hu

/-- C5: a request leaves the client configuration unchanged — every stored
field of the `API` value after the header phase of `request`, the stored
header map included, equals its value before the call; the `Set` calls write
the cloned map, never the stored one. -/
theorem claim_C5_request_preserves_client (api : API) (authType : Nat) :
    requestApiAfter api authType = api := by
  have h0 : UnaliasedFrom (HeaderState.assignClone
      { apiHeaders := api.headers, reqHeader := Header.empty, aliased := false })
      api.headers := ⟨rfl, rfl⟩
  have hX : (requestHeaderPhase api authType).apiHeaders = api.headers :=
    (stepContentType_unaliasedFrom (stepUserService_unaliasedFrom api authType
      (stepKeyEmail_unaliasedFrom api authType
        (stepAuthToken_unaliasedFrom api authType h0)))).1
  unfold requestApiAfter
  rw [hX]

theorem runStream_wellFormed (records : List LogRecord) :
    ∀ (i : Nat) (k : Int), 0 ≤ k →
      runStream (records.map some) i k = (records.take k.toNat, none) := by
  induction records with
  | nil =>
      intro i k _
      simp [runStream]
  | cons r rest ih =>
      intro i k hk
      rcases eq_or_lt_of_le hk with h0 | hpos
      · rw [← h0]
        simp [runStream]
      · have hne : k ≠ 0 := by omega
        have hnlt : ¬ k < 0 := by omega
        have htn : k.toNat = (k - 1).toNat + 1 := by omega
        simp only [List.map_cons, runStream, if_neg hne, if_neg hnlt]
        rw [ih (i + 1) (k - 1) (by omega), htn]
        rfl

theorem runStream_unbounded (records : List LogRecord) :
    ∀ (i : Nat), runStream (records.map some) i (-1) = (records, none) := by
  induction records with
  | nil =>
      intro i
      simp [runStream]
  | cons r rest ih =>
      intro i
      simp [runStream, ih (i + 1)]

/-- C7: on a body of N well-formed records, a requested count k ≥ 0 yields
exactly the first k records — min(N, k) of them — with no error, and the
unbounded sentinel count −1 yields all N records. -/
theorem claim_C7_count_semantics (records : List LogRecord) (k : Int) (hk : 0 ≤ k) :
    runStream (records.map some) 0 k = (records.take k.toNat, none) ∧
    (runStream (records.map some) 0 k).1.length = min records.length k.toNat ∧
    runStream (records.map some) 0 (-1) = (records, none) := by
  refine ⟨runStream_wellFormed records 0 k hk, ?_, runStream_unbounded records 0⟩
  rw [runStream_wellFormed records 0 k hk]
  simp [Nat.min_comm]

/-- Witness for C7 on a two-record body with count 1. -/
theorem claim_C7_count_semantics_witness :
    runStream (([[("RayID", "a")], [("RayID", "b")]] : List LogRecord).map some) 0 1
      = (([[("RayID", "a")], [("RayID", "b")]] : List LogRecord).take (1 : Int).toNat,
         none) ∧
    (runStream (([[("RayID", "a")], [("RayID", "b")]] : List LogRecord).map some) 0 1).1.length
      = min ([[("RayID", "a")], [("RayID", "b")]] : List LogRecord).length (1 : Int).toNat ∧
    runStream (([[("RayID", "a")], [("RayID", "b")]] : List LogRecord).map some) 0 (-1)
      = (([[("RayID", "a")], [("RayID", "b")]] : List LogRecord), none) :=
  claim_C7_count_semantics [[("RayID", "a")], [("RayID", "b")]] 1 (by norm_num)

theorem runStream_malformed (pre : List LogRecord) :
    ∀ (i : Nat) (rest : List (Option LogRecord)),
      runStream (pre.map some ++ none :: rest) i (-1) =
        (pre, some (.decodeError (i + pre.length))) := by
  induction pre with
  | nil =>
      intro i rest
      simp [runStream]
  | cons r pr ih =>
      intro i rest
      simp [runStream, ih (i + 1) rest]
      omega

/-- C8: a body whose first i lines are well-formed records and whose line at
record index i is malformed yields exactly records 0 through i−1, then aborts
with a decode error identifying index i; whatever follows the malformed line,
no further record is yielded and the yielded prefix stands. -/
theorem claim_C8_decode_abort (pre : List LogRecord) (rest : List (Option LogRecord)) :
    runStream (pre.map some ++ none :: rest) 0 (-1) =
      (pre, some (.decodeError pre.length)) := by
  simpa using runStream_malformed pre 0 rest

/-- C9: a query is accepted exactly when one selector — ray ID or time range,
not both, not neither — is set, with start before end when the range is used;
a query violating this fails with `invalidQuery` and performs zero fetches,
so it is never sent over the network. -/
theorem claim_C9_query_validation (q : Query) (body : List (Option LogRecord)) :
    ((validateQuery q).isOk ↔
      (q.rayID.isSome ≠ q.timeRange.isSome ∧ ∀ r ∈ q.timeRange, r.1 < r.2)) ∧
    (¬ (q.rayID.isSome ≠ q.timeRange.isSome ∧ ∀ r ∈ q.timeRange, r.1 < r.2) →
      retrieveForQuery q body = (.error .invalidQuery, 0)) := by
  obtain ⟨ray, tr, c, s, f, tf⟩ := q
  rcases ray with _ | rv
  · rcases tr with _ | ⟨ts, te⟩
    · simp [validateQuery, retrieveForQuery, Except.toBool]
    · by_cases hlt : ts < te <;>
        simp [validateQuery, retrieveForQuery, Except.toBool, hlt]
  · rcases tr with _ | ⟨ts, te⟩
    · simp [validateQuery, retrieveForQuery, Except.toBool]
    · simp [validateQuery, retrieveForQuery, Except.toBool]

/-- Witness for C9 at a query with both selectors set: it is rejected with
`invalidQuery` after zero fetches. -/
theorem claim_C9_query_validation_witness :
    retrieveForQuery
      { rayID := some "ray", timeRange := some (0, 10), count := -1,
        sample := none, fields := [], timestampFormat := none } []
      = (.error .invalidQuery, 0) :=
  (claim_C9_query_validation
    { rayID := some "ray", timeRange := some (0, 10), count := -1,
      sample := none, fields := [], timestampFormat := none } []).2 (by simp)

/-- C10: over any listing, `ZoneIDByName` returns the ID of the first zone
whose name is exactly equal to the requested name, and the error
`Zone could not be found` when no name matches. -/
theorem claim_C10_zone_lookup (res : List Zone) (zoneName : String) :
    ZoneIDByName res zoneName =
      match res.find? (fun z => z.Name == zoneName) with
      | some z => .ok z.ID
      | none => .error "Zone could not be found" := by
  induction res with
  | nil => rfl
  | cons z rest ih =>
      by_cases h : z.Name = zoneName
      · simp [ZoneIDByName, List.find?, h]
      · have hb : (z.Name == zoneName) = false := by simp [beq_iff_eq, h]
        simp [ZoneIDByName, List.find?, h, hb, ih]

end Logshare
